import Mathlib

/-!
Shallow embedding of the Flappy-style flying game implemented in
`src/my-app/app/page.tsx`.  JavaScript numbers are modelled as rationals
(all game arithmetic here is exact in ℚ); the value returned by the one
`Math.random()` call of a tick is passed in as a parameter `r`.  React
state updates are modelled with their actual semantics: functional
`setScore` updates accumulate during a tick, while `setHighScore(score)`
and the `score > highScore` guard read the values the closure captured at
the start of the tick.  A tick in a non-playing phase only draws and is
the identity on the world.
-/

namespace FlyingGame

/-- Game constant from the source. -/
def GAME_WIDTH : ℚ := 400

/-- Game constant from the source. -/
def GAME_HEIGHT : ℚ := 600

/-- Game constant from the source. -/
def GRAVITY : ℚ := 0.4

/-- Game constant from the source. -/
def JUMP_STRENGTH : ℚ := -8

/-- Game constant from the source. -/
def BULLET_SPEED : ℚ := 8

/-- Game constant from the source. -/
def PIPE_SPEED : ℚ := 2

/-- Game constant from the source (spawn cadence in frames). -/
def PIPE_SPAWN_RATE : ℕ := 150

/-- `interface Pipe` from the source. -/
structure Pipe where
  x : ℚ
  topHeight : ℚ
  gap : ℚ
  passed : Bool
deriving DecidableEq

/-- `interface Bullet` from the source. -/
structure Bullet where
  x : ℚ
  y : ℚ
  active : Bool
deriving DecidableEq

/-- `interface Player` from the source. -/
structure Player where
  x : ℚ
  y : ℚ
  velocity : ℚ
  rotation : ℚ
deriving DecidableEq

/-- The `gameState` React state: 'start' | 'playing' | 'gameOver'. -/
inductive GamePhase where
  | start
  | playing
  | gameOver
deriving DecidableEq

/-- The whole mutable state of the component: phase, the two scores, and
the refs holding player, pipes, bullets and the frame counter. -/
structure World where
  gameState : GamePhase
  score : ℕ
  highScore : ℕ
  player : Player
  pipes : List Pipe
  bullets : List Bullet
  frameCount : ℕ
deriving DecidableEq

/-- Axis-aligned rectangle as used by `checkCollision`. -/
structure Rect where
  x : ℚ
  y : ℚ
  w : ℚ
  h : ℚ

/-- `checkCollision` from the source: strict AABB overlap on both axes. -/
def checkCollision (a b : Rect) : Bool :=
  decide (a.x < b.x + b.w) && decide (a.x + a.w > b.x) &&
    decide (a.y < b.y + b.h) && decide (a.y + a.h > b.y)

/-- The player hitbox `{ x: player.x - 15, y: player.y - 15, w: 30, h: 30 }`. -/
def playerHitbox (p : Player) : Rect :=
  { x := p.x - 15, y := p.y - 15, w := 30, h := 30 }

/-- The bullet hitbox `{ x: bullet.x - 5, y: bullet.y - 3, w: 10, h: 6 }`. -/
def bulletHitbox (b : Bullet) : Rect :=
  { x := b.x - 5, y := b.y - 3, w := 10, h := 6 }

/-- The top segment `{ x: pipe.x, y: 0, w: 50, h: pipe.topHeight }`. -/
def topPipeRect (p : Pipe) : Rect :=
  { x := p.x, y := 0, w := 50, h := p.topHeight }

/-- The bottom segment
`{ x: pipe.x, y: pipe.topHeight + pipe.gap, w: 50, h: GAME_HEIGHT }`. -/
def bottomPipeRect (p : Pipe) : Rect :=
  { x := p.x, y := p.topHeight + p.gap, w := 50, h := GAME_HEIGHT }

/-- The player-vs-pipe test of the pipe update pass. -/
def pipeHitsPlayer (player : Player) (p : Pipe) : Bool :=
  checkCollision (playerHitbox player) (topPipeRect p) ||
    checkCollision (playerHitbox player) (bottomPipeRect p)

/-- The bullet-vs-pipe test of the bullet update pass. -/
def bulletHitsPipe (b : Bullet) (p : Pipe) : Bool :=
  checkCollision (bulletHitbox b) (topPipeRect p) ||
    checkCollision (bulletHitbox b) (bottomPipeRect p)

/-- `pipe.x -= PIPE_SPEED`. -/
def movePipe (p : Pipe) : Pipe :=
  { p with x := p.x - PIPE_SPEED }

/-- `bullet.x += BULLET_SPEED`. -/
def moveBullet (b : Bullet) : Bullet :=
  { b with x := b.x + BULLET_SPEED }

/-- The physics step of the game loop: `player.velocity += GRAVITY;
player.y += player.velocity;` then rotation is derived from the new
velocity, clamped with `Math.min(Math.max(velocity * 3, -30), 45)`. -/
def stepPlayer (p : Player) : Player :=
  let v := p.velocity + GRAVITY
  let y := p.y + v
  { p with velocity := v, y := y, rotation := min (max (v * 3) (-30)) 45 }

/-- One iteration body of the pipe-movement-and-scoring pass, expressed as
a map step: move the pipe, then set `passed` if the pipe has just been
passed.  Used only for stating and proving characterizations of
`updatePipes`. -/
def stepPipe (player : Player) (p : Pipe) : Pipe :=
  let moved := movePipe p
  if !moved.passed && decide (moved.x + 50 < player.x) then
    { moved with passed := true }
  else
    moved

/-- The `pipesRef.current.filter(...)` pass of the game loop.  For each
pipe in order: move it left, test collision with the player, award a pass
point if its right edge just crossed the player's x, and keep it only
while `pipe.x > -60`.  Returns (surviving pipes, number of pass points
awarded, whether any pipe collided with the player). -/
def updatePipes (player : Player) : List Pipe → List Pipe × ℕ × Bool
  | [] => ([], 0, false)
  | p :: rest =>
    let moved := movePipe p
    let collided := pipeHitsPlayer player moved
    let newlyPassed := !moved.passed && decide (moved.x + 50 < player.x)
    let scored := if newlyPassed then { moved with passed := true } else moved
    let r := updatePipes player rest
    ((if decide (scored.x > -60) then scored :: r.1 else r.1),
     (if newlyPassed then 1 else 0) + r.2.1,
     collided || r.2.2)

/-- The inner `pipesRef.current.filter(...)` run for one (already moved)
bullet: every pipe the bullet hitbox intersects is removed, each awarding
the destruction bonus.  Returns (remaining pipes, number destroyed). -/
def bulletScanPipes (b : Bullet) : List Pipe → List Pipe × ℕ
  | [] => ([], 0)
  | p :: rest =>
    let r := bulletScanPipes b rest
    if bulletHitsPipe b p then (r.1, r.2 + 1) else (p :: r.1, r.2)

/-- The `bulletsRef.current.filter(...)` pass: each bullet in order moves
right, destroys every pipe it now intersects, and survives only if it is
still left of `GAME_WIDTH` and hit nothing.  Returns (surviving bullets,
remaining pipes, total pipes destroyed). -/
def updateBullets : List Bullet → List Pipe → List Bullet × List Pipe × ℕ
  | [], pipes => ([], pipes, 0)
  | b :: rest, pipes =>
    let moved := moveBullet b
    let sc := bulletScanPipes moved pipes
    let r := updateBullets rest sc.1
    ((if decide (moved.x < GAME_WIDTH) && (sc.2 == 0) then moved :: r.1 else r.1),
     r.2.1,
     sc.2 + r.2.2)

/-- The pipe created on a spawn frame:
`{ x: GAME_WIDTH, topHeight: Math.random() * (maxHeight - minHeight) + minHeight,
gap: 120, passed: false }` with `minHeight = 50`,
`maxHeight = GAME_HEIGHT - 200`; `r` stands for the `Math.random()` value. -/
def spawnPipe (r : ℚ) : Pipe :=
  let minHeight : ℚ := 50
  let maxHeight : ℚ := GAME_HEIGHT - 200
  { x := GAME_WIDTH, topHeight := r * (maxHeight - minHeight) + minHeight,
    gap := 120, passed := false }

/-- The spawn step: after the frame counter was incremented to `fc`, a
new pipe is appended exactly when `fc % PIPE_SPAWN_RATE == 0`. -/
def spawnStep (r : ℚ) (fc : ℕ) (pipes : List Pipe) : List Pipe :=
  if fc % PIPE_SPAWN_RATE = 0 then pipes ++ [spawnPipe r] else pipes

/-- One run of `gameLoop` (one tick).  In a non-playing phase the loop
only draws, so the world is unchanged.  While playing: physics, boundary
check, frame increment and spawning, the pipe pass, then the bullet pass.
`setScore` functional updates accumulate; `setGameState('gameOver')` and
the high-score commit read the stale `score`/`highScore` captured at the
start of the tick, so the committed high score is
`max highScore score` (start-of-tick values) whenever the player died. -/
def tick (r : ℚ) (w : World) : World :=
  match w.gameState with
  | GamePhase.playing =>
    let player := stepPlayer w.player
    let boundaryDead := decide (player.y > GAME_HEIGHT - 40) || decide (player.y < 0)
    let fc := w.frameCount + 1
    let pipes0 := spawnStep r fc w.pipes
    let pu := updatePipes player pipes0
    let bu := updateBullets w.bullets pu.1
    let died := boundaryDead || pu.2.2
    { gameState := if died then GamePhase.gameOver else GamePhase.playing,
      score := w.score + pu.2.1 + 2 * bu.2.2,
      highScore := if died && decide (w.score > w.highScore) then w.score else w.highScore,
      player := player,
      pipes := bu.2.1,
      bullets := bu.1,
      frameCount := fc }
  | _ => w

/-- `resetGame` from the source. -/
def resetGame (w : World) : World :=
  { w with player := { x := 80, y := 250, velocity := 0, rotation := 0 },
           pipes := [], bullets := [], frameCount := 0, score := 0 }

/-- `jump` from the source: start → playing with an impulse; playing →
impulse only; gameOver → reset then back to the start screen. -/
def jump (w : World) : World :=
  match w.gameState with
  | GamePhase.start =>
    { w with gameState := GamePhase.playing,
             player := { w.player with velocity := JUMP_STRENGTH } }
  | GamePhase.playing =>
    { w with player := { w.player with velocity := JUMP_STRENGTH } }
  | GamePhase.gameOver =>
    { resetGame w with gameState := GamePhase.start }

/-- `shoot` from the source: only while playing, append a bullet at
`(player.x + 20, player.y + 10)`. -/
def shoot (w : World) : World :=
  match w.gameState with
  | GamePhase.playing =>
    { w with bullets := w.bullets ++
        [{ x := w.player.x + 20, y := w.player.y + 10, active := true }] }
  | _ => w

/-- The world at the start of a fresh playing round (used by claim C2). -/
def cexWorld2 : World :=
  { gameState := GamePhase.playing, score := 0, highScore := 0,
    player := { x := 80, y := 250, velocity := 0, rotation := 0 },
    pipes := [], bullets := [], frameCount := 0 }

/-- Two overlapping pipes in front of one bullet (used by claim C3). -/
def cexWorld3 : World :=
  { gameState := GamePhase.playing, score := 0, highScore := 0,
    player := { x := 80, y := 150, velocity := 0, rotation := 0 },
    pipes := [{ x := 102, topHeight := 100, gap := 120, passed := false },
              { x := 106, topHeight := 100, gap := 120, passed := false }],
    bullets := [{ x := 100, y := 10, active := true }], frameCount := 0 }

/-- A populated game-over world (used by claim C6). -/
def witWorld6 : World :=
  { gameState := GamePhase.gameOver, score := 7, highScore := 5,
    player := { x := 80, y := 700, velocity := 3, rotation := 45 },
    pipes := [{ x := 100, topHeight := 90, gap := 120, passed := true }],
    bullets := [{ x := 50, y := 60, active := true }], frameCount := 42 }

/-- A pipe colliding with the player plus a pipe destroyed by a bullet in
the same tick (used by claim C1). -/
def cexWorld1 : World :=
  { gameState := GamePhase.playing, score := 0, highScore := 0,
    player := { x := 80, y := 150, velocity := 0, rotation := 0 },
    pipes := [{ x := 82, topHeight := 200, gap := 120, passed := false },
              { x := 202, topHeight := 100, gap := 120, passed := false }],
    bullets := [{ x := 197, y := 10, active := true }], frameCount := 0 }

/-- A single pipe that collides with the player after moving (used by the
claim C1 witness). -/
def witWorld1 : World :=
  { gameState := GamePhase.playing, score := 0, highScore := 0,
    player := { x := 80, y := 150, velocity := 0, rotation := 0 },
    pipes := [{ x := 82, topHeight := 200, gap := 120, passed := false }],
    bullets := [], frameCount := 0 }

/-- A playing world with one pipe about to be passed (used by claim C4). -/
def witWorld4 : World :=
  { gameState := GamePhase.playing, score := 0, highScore := 0,
    player := { x := 80, y := 150, velocity := 0, rotation := 0 },
    pipes := [{ x := 30, topHeight := 100, gap := 120, passed := false }],
    bullets := [], frameCount := 0 }

/-- A world in which the player leaves the floor boundary in the same
tick as a pipe is passed (used by claim C5). -/
def cexWorld5 : World :=
  { gameState := GamePhase.playing, score := 0, highScore := 0,
    player := { x := 80, y := 560, velocity := 0, rotation := 0 },
    pipes := [{ x := 30, topHeight := 100, gap := 120, passed := false }],
    bullets := [], frameCount := 0 }

/-- A dying world with a pending best update (used by the C5 witness). -/
def witWorld5 : World :=
  { gameState := GamePhase.playing, score := 6, highScore := 2,
    player := { x := 80, y := 560, velocity := 0, rotation := 0 },
    pipes := [], bullets := [], frameCount := 0 }

/-- A pipe that is already fully off-screen on the left but not yet at
the removal threshold (used by claim C7). -/
def cexWorld7 : World :=
  { gameState := GamePhase.playing, score := 0, highScore := 0,
    player := { x := 80, y := 150, velocity := 0, rotation := 0 },
    pipes := [{ x := -54, topHeight := 100, gap := 120, passed := true }],
    bullets := [], frameCount := 0 }

/-- A playing world with one surviving far-left pipe (used by the C7
witness). -/
def witWorld7 : World :=
  { gameState := GamePhase.playing, score := 0, highScore := 0,
    player := { x := 80, y := 150, velocity := 0, rotation := 0 },
    pipes := [{ x := 0, topHeight := 100, gap := 120, passed := true }],
    bullets := [], frameCount := 0 }

/-- A playing world one frame before the spawn cadence (used by the C8
witness). -/
def witWorld8 : World :=
  { gameState := GamePhase.playing, score := 0, highScore := 0,
    player := { x := 80, y := 150, velocity := 0, rotation := 0 },
    pipes := [], bullets := [], frameCount := 149 }

/-- A playing world whose player lands exactly on the floor threshold
y = 560 after the physics step (used by the C9 witness). -/
def witWorld9 : World :=
  { gameState := GamePhase.playing, score := 0, highScore := 0,
    player := { x := 80, y := 559.6, velocity := 0, rotation := 0 },
    pipes := [], bullets := [], frameCount := 0 }

/-- A world whose single pipe is passed on the first tick and destroyed
by the chasing bullet on the second tick (used by claim C10). -/
def traceWorld10 : World :=
  { gameState := GamePhase.playing, score := 0, highScore := 0,
    player := { x := 80, y := 150, velocity := 0, rotation := 0 },
    pipes := [{ x := 30, topHeight := 100, gap := 120, passed := false }],
    bullets := [{ x := 10, y := 10, active := true }], frameCount := 0 }

theorem updatePipes_eq (player : Player) (pipes : List Pipe) :
    updatePipes player pipes =
      ((pipes.map (stepPipe player)).filter (fun p => decide (p.x > -60)),
       pipes.countP (fun p => !p.passed && decide (p.x - PIPE_SPEED + 50 < player.x)),
       pipes.any (fun p => pipeHitsPlayer player (movePipe p))) := by
  induction pipes with
  | nil => rfl
  | cons p rest ih =>
    simp only [updatePipes, ih, stepPipe, movePipe, List.map_cons, List.filter_cons,
      List.countP_cons, List.any_cons]
    simp only [Prod.mk.injEq]
    exact ⟨trivial, Nat.add_comm _ _, trivial⟩

theorem bulletScanPipes_eq (b : Bullet) (pipes : List Pipe) :
    bulletScanPipes b pipes =
      (pipes.filter (fun p => !(bulletHitsPipe b p)),
       pipes.countP (fun p => bulletHitsPipe b p)) := by
  induction pipes with
  | nil => rfl
  | cons p rest ih =>
    simp only [bulletScanPipes, ih, List.filter_cons, List.countP_cons]
    cases h : bulletHitsPipe b p <;> simp [h]

theorem updateBullets_pipes_subset :
    ∀ (bs : List Bullet) (pipes : List Pipe) (q : Pipe),
      q ∈ (updateBullets bs pipes).2.1 → q ∈ pipes := by
  intro bs
  induction bs with
  | nil => intro pipes q hq; simpa [updateBullets] using hq
  | cons b rest ih =>
    intro pipes q hq
    simp only [updateBullets] at hq
    have h1 := ih (bulletScanPipes (moveBullet b) pipes).1 q hq
    rw [bulletScanPipes_eq] at h1
    exact List.mem_of_mem_filter h1

theorem updateBullets_mem_lt :
    ∀ (bs : List Bullet) (pipes : List Pipe) (b : Bullet),
      b ∈ (updateBullets bs pipes).1 → b.x < GAME_WIDTH := by
  intro bs
  induction bs with
  | nil => intro pipes b hb; simp [updateBullets] at hb
  | cons c rest ih =>
    intro pipes b hb
    simp only [updateBullets] at hb
    by_cases h : (decide ((moveBullet c).x < GAME_WIDTH) &&
        ((bulletScanPipes (moveBullet c) pipes).2 == 0)) = true
    · rw [if_pos h] at hb
      rcases List.mem_cons.mp hb with hb | hb
      · subst hb
        have h2 := (Bool.and_eq_true _ _).mp h
        exact of_decide_eq_true h2.1
      · exact ih _ b hb
    · rw [if_neg h] at hb
      exact ih _ b hb

theorem mem_spawnStep {q : Pipe} (r : ℚ) (fc : ℕ) {pipes : List Pipe}
    (hq : q ∈ pipes) : q ∈ spawnStep r fc pipes := by
  unfold spawnStep
  split
  · exact List.mem_append_left _ hq
  · exact hq

theorem commit_eq_max (sc bs : ℕ) :
    (if (decide (sc > bs)) = true then sc else bs) = max bs sc := by
  by_cases h : sc > bs
  · simp [h, Nat.max_eq_right (Nat.le_of_lt h)]
  · simp [h, Nat.max_eq_left (Nat.le_of_not_lt h)]

/-- Claim C1, counterexample: in the tick in which the player collides
with the first pipe, the bullet pass still runs: the second pipe is
destroyed and the destruction bonus is still awarded, so the first
detected collision does not short-circuit the remaining collision
checks of the tick. -/
theorem C1_cex :
    cexWorld1.pipes.length = 2 ∧
    (tick 0 cexWorld1).gameState = GamePhase.gameOver ∧
    (tick 0 cexWorld1).score = 2 ∧
    (tick 0 cexWorld1).pipes.length = 1 ∧
    (tick 0 cexWorld1).bullets = [] := by
  norm_num [tick, cexWorld1, stepPlayer, spawnStep, spawnPipe, updatePipes, updateBullets,
    bulletScanPipes, movePipe, moveBullet, pipeHitsPlayer, bulletHitsPipe, checkCollision,
    playerHitbox, bulletHitbox, topPipeRect, bottomPipeRect,
    GAME_WIDTH, GAME_HEIGHT, GRAVITY, PIPE_SPEED, BULLET_SPEED, PIPE_SPAWN_RATE]

/-- Claim C1 (amended): during a Playing tick, if the player hitbox (the
30x30 rectangle centered on the player position) intersects the top or
bottom segment of any obstacle after positions are advanced, the phase is
GameOver at the end of the tick (the collision does not short-circuit the
rest of the tick). -/
theorem C1_thm (r : ℚ) (w : World) (h : w.gameState = GamePhase.playing)
    (hc : ∃ p ∈ w.pipes, pipeHitsPlayer (stepPlayer w.player) (movePipe p) = true) :
    (tick r w).gameState = GamePhase.gameOver := by
  obtain ⟨gs, sc, hs, pl, ps, bs, fc⟩ := w
  cases h
  obtain ⟨p, hp, hhit⟩ := hc
  have hcol : (updatePipes (stepPlayer pl) (spawnStep r (fc + 1) ps)).2.2 = true := by
    rw [updatePipes_eq]
    exact List.any_eq_true.mpr ⟨p, mem_spawnStep r (fc + 1) hp, hhit⟩
  simp [tick, hcol]

/-- Witness for claim C1: a concrete collision ends the round. -/
theorem C1_witness : (tick 0 witWorld1).gameState = GamePhase.gameOver :=
  C1_thm 0 witWorld1 rfl
    ⟨{ x := 82, topHeight := 200, gap := 120, passed := false },
     by simp [witWorld1],
     by norm_num [pipeHitsPlayer, stepPlayer, movePipe, checkCollision, playerHitbox,
       topPipeRect, bottomPipeRect, witWorld1, GRAVITY, GAME_HEIGHT, PIPE_SPEED]⟩

/-- Claim C2, counterexample: from the initial playing world (velocity 0,
y = 250), one tick moves the player to y = 250.4, not to
y = previous position + previous velocity = 250: the position update uses
the velocity already incremented by gravity. -/
theorem C2_cex :
    (tick 0 cexWorld2).player.y ≠ cexWorld2.player.y + cexWorld2.player.velocity ∧
    (tick 0 cexWorld2).player.y =
      cexWorld2.player.y + (cexWorld2.player.velocity + GRAVITY) := by
  norm_num [tick, cexWorld2, stepPlayer, spawnStep, spawnPipe, updatePipes, updateBullets,
    bulletScanPipes, movePipe, moveBullet, pipeHitsPlayer, bulletHitsPipe, checkCollision,
    playerHitbox, bulletHitbox, topPipeRect, bottomPipeRect,
    GAME_WIDTH, GAME_HEIGHT, GRAVITY, PIPE_SPEED, BULLET_SPEED, PIPE_SPAWN_RATE]

/-- Claim C2 (amended): on every tick while Playing, the vertical velocity
becomes the previous velocity plus the gravity constant 0.4, and the
vertical position becomes the previous position plus that updated
velocity (semi-implicit Euler: the position update uses the new
velocity, with a fixed per-frame step and no delta-time scaling). -/
theorem C2_thm (r : ℚ) (w : World) (h : w.gameState = GamePhase.playing) :
    (tick r w).player.velocity = w.player.velocity + GRAVITY ∧
    (tick r w).player.y = w.player.y + (w.player.velocity + GRAVITY) := by
  obtain ⟨gs, sc, hs, pl, ps, bs, fc⟩ := w
  cases h
  simp [tick, stepPlayer]

/-- Witness for claim C2 at the initial playing world. -/
theorem C2_witness :
    (tick 0 cexWorld2).player.velocity = cexWorld2.player.velocity + GRAVITY ∧
    (tick 0 cexWorld2).player.y =
      cexWorld2.player.y + (cexWorld2.player.velocity + GRAVITY) :=
  C2_thm 0 cexWorld2 rfl

/-- Claim C3, counterexample: one bullet whose hitbox overlaps two pipes
destroys both of them in the same tick and the score rises by 4 (2 per
pipe), while the claim says only the first pipe in collection order is
destroyed. -/
theorem C3_cex :
    cexWorld3.pipes.length = 2 ∧ cexWorld3.bullets.length = 1 ∧
    (tick 0 cexWorld3).pipes = [] ∧ (tick 0 cexWorld3).score = 4 ∧
    (tick 0 cexWorld3).bullets = [] ∧
    (tick 0 cexWorld3).gameState = GamePhase.playing := by
  norm_num [tick, cexWorld3, stepPlayer, spawnStep, spawnPipe, updatePipes, updateBullets,
    bulletScanPipes, movePipe, moveBullet, pipeHitsPlayer, bulletHitsPipe, checkCollision,
    playerHitbox, bulletHitbox, topPipeRect, bottomPipeRect,
    GAME_WIDTH, GAME_HEIGHT, GRAVITY, PIPE_SPEED, BULLET_SPEED, PIPE_SPAWN_RATE]

/-- Claim C3 (amended): after a projectile advances, every obstacle whose
top or bottom segment its hitbox intersects is removed from the
collection (one destruction bonus counted per removed obstacle), the
projectile itself is kept only if it is still inside the play-field and
hit nothing; remaining obstacles are exactly those the projectile does
not intersect. -/
theorem C3_thm (b : Bullet) (pipes : List Pipe) :
    updateBullets [b] pipes =
      ((if decide ((moveBullet b).x < GAME_WIDTH) &&
            (pipes.countP (fun p => bulletHitsPipe (moveBullet b) p) == 0)
          then [moveBullet b] else []),
       pipes.filter (fun p => !(bulletHitsPipe (moveBullet b) p)),
       pipes.countP (fun p => bulletHitsPipe (moveBullet b) p)) := by
  simp [updateBullets, bulletScanPipes_eq]

/-- Claim C4: during a Playing tick with no live projectiles, the score
rises by exactly one per obstacle whose passed flag is false and whose
right edge (x + 50) has moved strictly left of the player x; the per-pipe
update sets passed exactly to (previous passed OR that condition), so a
passed flag never reverts and flips false to true at most once. -/
theorem C4_thm (r : ℚ) (w : World) (h : w.gameState = GamePhase.playing)
    (hb : w.bullets = []) :
    ((tick r w).score = w.score +
      (spawnStep r (w.frameCount + 1) w.pipes).countP
        (fun p => !p.passed && decide (p.x - PIPE_SPEED + 50 < w.player.x))) ∧
    (∀ (player : Player) (p : Pipe),
      (stepPipe player p).passed = (p.passed || decide (p.x - PIPE_SPEED + 50 < player.x))) ∧
    (∀ (player : Player) (p : Pipe), (stepPipe player p).x = p.x - PIPE_SPEED) := by
  refine ⟨?_, ?_, ?_⟩
  · obtain ⟨gs, sc, hs, pl, ps, bs, fc⟩ := w
    cases h
    cases hb
    simp [tick, updatePipes_eq, updateBullets, stepPlayer]
  · intro player p
    simp only [stepPipe, movePipe]
    cases hp : p.passed
    · by_cases hc : p.x - PIPE_SPEED + 50 < player.x <;> simp [hp, hc]
    · simp [hp]
  · intro player p
    simp only [stepPipe, movePipe]
    split <;> rfl

/-- Witness for claim C4: the single pipe of `witWorld4` is passed during
the tick and scores exactly one point. -/
theorem C4_witness : (tick 0 witWorld4).score = 1 := by
  have h := (C4_thm 0 witWorld4 rfl rfl).1
  rw [h]
  norm_num [witWorld4, spawnStep, spawnPipe, List.countP_cons, PIPE_SPAWN_RATE,
    PIPE_SPEED, GAME_WIDTH, GAME_HEIGHT]

/-- Claim C5, counterexample: the player dies by the floor in the same
tick as a pipe is passed; the pass point is still added (final score 1)
but the high score commit reads the start-of-tick score 0, so after this
completed round the session best is 0, not the round maximum 1, and a
restart keeps it at 0. -/
theorem C5_cex :
    (tick 0 cexWorld5).gameState = GamePhase.gameOver ∧
    (tick 0 cexWorld5).score = 1 ∧
    (tick 0 cexWorld5).highScore = 0 ∧
    (jump (tick 0 cexWorld5)).highScore = 0 ∧
    (jump (tick 0 cexWorld5)).gameState = GamePhase.start := by
  norm_num [tick, jump, resetGame, cexWorld5, stepPlayer, spawnStep, spawnPipe, updatePipes,
    updateBullets, bulletScanPipes, movePipe, moveBullet, pipeHitsPlayer, bulletHitsPipe,
    checkCollision, playerHitbox, bulletHitbox, topPipeRect, bottomPipeRect,
    GAME_WIDTH, GAME_HEIGHT, GRAVITY, PIPE_SPEED, BULLET_SPEED, PIPE_SPAWN_RATE]

/-- Claim C5 (amended): the score never decreases during a round and the
session best never decreases under any operation; when a Playing tick
ends in GameOver the committed session best is the maximum of the
previous best and the score at the start of that tick (score earned
during the fatal tick itself is not included), and a tick that stays in
Playing leaves the session best unchanged. -/
theorem C5_thm (r : ℚ) (w : World) :
    ((tick r w).score ≥ w.score) ∧
    ((tick r w).highScore ≥ w.highScore) ∧
    ((jump w).highScore = w.highScore) ∧
    ((shoot w).highScore = w.highScore) ∧
    (w.gameState = GamePhase.playing → (tick r w).gameState = GamePhase.gameOver →
      (tick r w).highScore = max w.highScore w.score) ∧
    ((tick r w).gameState = GamePhase.playing → (tick r w).highScore = w.highScore) := by
  obtain ⟨gs, sc, hs, pl, ps, bs, fc⟩ := w
  cases gs
  case start =>
    refine ⟨le_refl _, le_refl _, by simp [jump], by simp [shoot], ?_, ?_⟩
    · intro h; exact absurd h (by simp [tick])
    · intro h; rfl
  case gameOver =>
    refine ⟨le_refl _, le_refl _, by simp [jump, resetGame], by simp [shoot], ?_, ?_⟩
    · intro h; exact absurd h (by simp)
    · intro h; rfl
  case playing =>
    refine ⟨?_, ?_, by simp [jump], by simp [shoot], ?_, ?_⟩
    · simp only [tick]
      omega
    · simp only [tick]
      split
      · rename_i hcond
        have h2 := of_decide_eq_true ((Bool.and_eq_true _ _).mp hcond).2
        omega
      · exact le_refl _
    · intro _ hg
      simp only [tick] at hg ⊢
      split at hg
      · rename_i hd
        rw [hd]
        simp only [Bool.true_and]
        exact commit_eq_max sc hs
      · exact absurd hg (by simp)
    · intro hg
      simp only [tick] at hg ⊢
      split at hg
      · exact absurd hg (by simp)
      · rename_i hd
        rw [Bool.not_eq_true] at hd
        simp [hd]

/-- Witness for claim C5: a fatal tick commits the session best as the
maximum of the previous best and the start-of-tick score. -/
theorem C5_witness : (tick 0 witWorld5).highScore = max witWorld5.highScore witWorld5.score := by
  have h := (C5_thm 0 witWorld5).2.2.2.2.1
  exact h rfl (by norm_num [tick, witWorld5, stepPlayer, spawnStep, spawnPipe, updatePipes,
    updateBullets, bulletScanPipes, movePipe, moveBullet, pipeHitsPlayer, bulletHitsPipe,
    checkCollision, playerHitbox, bulletHitbox, topPipeRect, bottomPipeRect,
    GAME_WIDTH, GAME_HEIGHT, GRAVITY, PIPE_SPEED, BULLET_SPEED, PIPE_SPAWN_RATE])

/-- Claim C6: a Jump while the phase is GameOver moves the phase to Start
and performs the full world reset: player back to defaults, both entity
collections cleared, frame counter and score zeroed, session best kept. -/
theorem C6_thm (w : World) (h : w.gameState = GamePhase.gameOver) :
    (jump w).gameState = GamePhase.start ∧
    (jump w).player = { x := 80, y := 250, velocity := 0, rotation := 0 } ∧
    (jump w).pipes = [] ∧ (jump w).bullets = [] ∧
    (jump w).frameCount = 0 ∧ (jump w).score = 0 ∧
    (jump w).highScore = w.highScore := by
  obtain ⟨gs, sc, hs, pl, ps, bs, fc⟩ := w
  cases h
  simp [jump, resetGame]

/-- Witness for claim C6 at a populated game-over world. -/
theorem C6_witness :
    (jump witWorld6).gameState = GamePhase.start ∧
    (jump witWorld6).player = { x := 80, y := 250, velocity := 0, rotation := 0 } ∧
    (jump witWorld6).pipes = [] ∧ (jump witWorld6).bullets = [] ∧
    (jump witWorld6).frameCount = 0 ∧ (jump witWorld6).score = 0 ∧
    (jump witWorld6).highScore = witWorld6.highScore :=
  C6_thm witWorld6 rfl

/-- Claim C7, counterexample: a pipe at x = -54 moves to x = -56, whose
whole drawing (body up to x + 50, caps up to x + 55) is strictly left of
the screen, yet it survives the tick because removal only happens at
x ≤ -60 — so an obstacle is not removed in the same tick it scrolls
fully off-screen. -/
theorem C7_cex :
    (tick 0 cexWorld7).pipes = [{ x := -56, topHeight := 100, gap := 120, passed := true }] ∧
    ((-56 : ℚ) + 55 < 0) ∧
    (tick 0 cexWorld7).gameState = GamePhase.playing := by
  norm_num [tick, cexWorld7, stepPlayer, spawnStep, spawnPipe, updatePipes, updateBullets,
    bulletScanPipes, movePipe, moveBullet, pipeHitsPlayer, bulletHitsPipe, checkCollision,
    playerHitbox, bulletHitbox, topPipeRect, bottomPipeRect,
    GAME_WIDTH, GAME_HEIGHT, GRAVITY, PIPE_SPEED, BULLET_SPEED, PIPE_SPAWN_RATE]

/-- Claim C7 (amended): after any Playing tick no retained entity is past
its removal threshold: every surviving obstacle satisfies x > -60 (the
code's removal bound, a few pixels past fully off-screen) and every
surviving projectile satisfies x < GAME_WIDTH; obstacles destroyed by a
projectile and entities past the thresholds are removed within the tick. -/
theorem C7_thm (r : ℚ) (w : World) (h : w.gameState = GamePhase.playing) :
    (∀ p ∈ (tick r w).pipes, p.x > -60) ∧
    (∀ b ∈ (tick r w).bullets, b.x < GAME_WIDTH) := by
  obtain ⟨gs, sc, hs, pl, ps, bs, fc⟩ := w
  cases h
  constructor
  · intro p hp
    have h1 : p ∈ (updatePipes (stepPlayer pl)
        (spawnStep r (fc + 1) ps)).1 :=
      updateBullets_pipes_subset bs _ p hp
    rw [updatePipes_eq] at h1
    exact of_decide_eq_true (List.mem_filter.mp h1).2
  · intro b hb
    exact updateBullets_mem_lt bs _ b hb

/-- Witness for claim C7: the surviving pipe of `witWorld7` is inside the
removal threshold. -/
theorem C7_witness :
    ({ x := -2, topHeight := 100, gap := 120, passed := true } : Pipe) ∈
      (tick 0 witWorld7).pipes ∧
    ({ x := -2, topHeight := 100, gap := 120, passed := true } : Pipe).x > -60 := by
  have hmem : ({ x := -2, topHeight := 100, gap := 120, passed := true } : Pipe) ∈
      (tick 0 witWorld7).pipes := by
    norm_num [tick, witWorld7, stepPlayer, spawnStep, spawnPipe, updatePipes, updateBullets,
      bulletScanPipes, movePipe, moveBullet, pipeHitsPlayer, bulletHitsPipe, checkCollision,
      playerHitbox, bulletHitbox, topPipeRect, bottomPipeRect,
      GAME_WIDTH, GAME_HEIGHT, GRAVITY, PIPE_SPEED, BULLET_SPEED, PIPE_SPAWN_RATE]
  exact ⟨hmem, (C7_thm 0 witWorld7 rfl).1 _ hmem⟩

/-- Claim C8: every Playing tick increments the frame counter by one; a
pipe is appended exactly when the incremented counter is a multiple of
the spawn interval 150, and the created pipe sits at the right edge
x = GAME_WIDTH = 400 with gap 120, passed = false, and a top height
r * 350 + 50 lying in [50, 400) for any random draw r in [0, 1). -/
theorem C8_thm (r : ℚ) (w : World) (fc : ℕ) (pipes : List Pipe)
    (h : w.gameState = GamePhase.playing) (h0 : 0 ≤ r) (h1 : r < 1) :
    ((tick r w).frameCount = w.frameCount + 1) ∧
    (fc % PIPE_SPAWN_RATE = 0 → spawnStep r fc pipes = pipes ++ [spawnPipe r]) ∧
    (fc % PIPE_SPAWN_RATE ≠ 0 → spawnStep r fc pipes = pipes) ∧
    (spawnPipe r).x = GAME_WIDTH ∧ (spawnPipe r).gap = 120 ∧
    (spawnPipe r).passed = false ∧
    50 ≤ (spawnPipe r).topHeight ∧ (spawnPipe r).topHeight < 400 := by
  refine ⟨?_, ?_, ?_, rfl, rfl, rfl, ?_, ?_⟩
  · obtain ⟨gs, sc, hs, pl, ps, bs, fc0⟩ := w
    cases h
    rfl
  · intro hfc
    simp [spawnStep, hfc]
  · intro hfc
    simp [spawnStep, hfc]
  · simp only [spawnPipe, GAME_HEIGHT]
    nlinarith
  · simp only [spawnPipe, GAME_HEIGHT]
    nlinarith

/-- Witness for claim C8 with the random draw 1/2, at the frame before
the 150th: the counter increments, the spawn fires at 150 and not at
151, and the spawned top height is in range. -/
theorem C8_witness :
    (tick (1/2) witWorld8).frameCount = witWorld8.frameCount + 1 ∧
    spawnStep (1/2) 150 [] = [spawnPipe (1/2)] ∧
    spawnStep (1/2) 151 [] = [] ∧
    50 ≤ (spawnPipe (1/2 : ℚ)).topHeight ∧ (spawnPipe (1/2 : ℚ)).topHeight < 400 := by
  have h := C8_thm (1/2) witWorld8 150 [] rfl (by norm_num) (by norm_num)
  have h2 := C8_thm (1/2) witWorld8 151 [] rfl (by norm_num) (by norm_num)
  refine ⟨h.1, ?_, h2.2.2.1 (by norm_num [PIPE_SPAWN_RATE]), h.2.2.2.2.2.2.1, h.2.2.2.2.2.2.2⟩
  have h3 := h.2.1 (by norm_num [PIPE_SPAWN_RATE])
  simpa using h3

/-- Claim C9: with no obstacles in play (and no spawn due), a Playing
tick ends in GameOver exactly when the advanced vertical position is
strictly greater than GAME_HEIGHT - 40 = 560 or strictly less than 0; in
particular a player resting exactly on 560 or exactly on 0 keeps
playing. -/
theorem C9_thm (r : ℚ) (w : World) (h : w.gameState = GamePhase.playing)
    (hp : w.pipes = []) (hf : (w.frameCount + 1) % PIPE_SPAWN_RATE ≠ 0) :
    ((tick r w).gameState = GamePhase.gameOver ↔
      (w.player.y + (w.player.velocity + GRAVITY) > GAME_HEIGHT - 40 ∨
       w.player.y + (w.player.velocity + GRAVITY) < 0)) := by
  obtain ⟨gs, sc, hs, pl, ps, bs, fc⟩ := w
  cases h
  cases hp
  have hsp : spawnStep r (fc + 1) ([] : List Pipe) = [] := by
    simp [spawnStep, hf]
  by_cases hA : pl.y + (pl.velocity + GRAVITY) > GAME_HEIGHT - 40
  · simp [tick, hsp, updatePipes, stepPlayer, hA]
  · by_cases hB : pl.y + (pl.velocity + GRAVITY) < 0
    · simp [tick, hsp, updatePipes, stepPlayer, hA, hB]
    · simp [tick, hsp, updatePipes, stepPlayer, hA, hB]

/-- Witness for claim C9: a player whose physics step lands exactly on
y = 560 does not trigger GameOver. -/
theorem C9_witness : ¬ (tick 0 witWorld9).gameState = GamePhase.gameOver := by
  have h := C9_thm 0 witWorld9 rfl rfl (by norm_num [PIPE_SPAWN_RATE, witWorld9])
  rw [h]
  norm_num [witWorld9, GRAVITY, GAME_HEIGHT]

/-- Claim C10: an obstacle already scored as passed can still be
destroyed by a projectile for the +2 bonus on top of the +1 pass point:
from `traceWorld10` the first tick flips the pipe to passed (score 1),
the second tick has the bullet destroy that same passed pipe (score 3),
so one obstacle contributes 3 points; moreover the projectile-obstacle
hit test never reads the passed flag. -/
theorem C10_thm :
    (tick 0 traceWorld10).score = 1 ∧
    (tick 0 traceWorld10).pipes = [{ x := 28, topHeight := 100, gap := 120, passed := true }] ∧
    (tick 0 traceWorld10).gameState = GamePhase.playing ∧
    (tick 0 (tick 0 traceWorld10)).score = 3 ∧
    (tick 0 (tick 0 traceWorld10)).pipes = [] ∧
    (tick 0 (tick 0 traceWorld10)).gameState = GamePhase.playing ∧
    (∀ (b : Bullet) (p : Pipe) (pb : Bool),
      bulletHitsPipe b { p with passed := pb } = bulletHitsPipe b p) := by
  refine ⟨?_, ?_, ?_, ?_, ?_, ?_, fun b p pb => rfl⟩ <;>
    norm_num [tick, traceWorld10, stepPlayer, spawnStep, spawnPipe, updatePipes, updateBullets,
      bulletScanPipes, movePipe, moveBullet, pipeHitsPlayer, bulletHitsPipe, checkCollision,
      playerHitbox, bulletHitbox, topPipeRect, bottomPipeRect,
      GAME_WIDTH, GAME_HEIGHT, GRAVITY, PIPE_SPEED, BULLET_SPEED, PIPE_SPAWN_RATE]

end FlyingGame
